import Mathlib

/-!
Shallow embedding of the resource declarations of the `medical_imaging_cdk`
package (ai-ddx-assist-cdk-demo) together with the platform semantics those
declarations configure: DynamoDB stream filtering by EventBridge Pipes,
SQS redrive and FIFO deduplication, Step Functions retry/catch execution,
DynamoDB TTL reclamation, and S3 event notifications.

Each configuration value is transcribed from the python source file that
declares it; where the source omits a parameter, the framework default is
used and noted in the doc comment.
-/

namespace DdxAssist

/-- DynamoDB stream event names (the `eventName` of a stream record).
A deletion is emitted as `REMOVE`. -/
inductive StreamEventName
  | INSERT
  | MODIFY
  | REMOVE
deriving DecidableEq, Repr

/-- A DynamoDB attribute value as it appears in a stream image:
a string attribute (`S`) or a number attribute (`N`). -/
inductive AttrValue
  | S (s : String)
  | N (n : Int)
deriving DecidableEq, Repr

/-- A DynamoDB item image: a finite association list from attribute name
to typed attribute value. -/
abbrev Image := List (String × AttrValue)

/-- Look up a string attribute of an image (the `.S` accessor used by the
pipe JSONPath expressions); `none` when absent or not a string. -/
def Image.lookupS (img : Image) (k : String) : Option String :=
  match List.lookup k img with
  | some (AttrValue.S s) => some s
  | _ => none

/-- Look up a number attribute of an image (the `.N` accessor); `none`
when absent or not a number. -/
def Image.lookupN (img : Image) (k : String) : Option Int :=
  match List.lookup k img with
  | some (AttrValue.N n) => some n
  | _ => none

/-- A change record emitted by a table stream with the
`NEW_AND_OLD_IMAGES` view: event name plus the item images. -/
structure ChangeEvent where
  eventName : StreamEventName
  newImage : Image
  oldImage : Image
deriving DecidableEq, Repr

/-- The event pattern of a pipe source filter, as written in
`eventbridge/create_pipes.py`: a list of accepted event names and a list
of accepted values for the string attribute `status` of the new image. -/
structure FilterPattern where
  eventNames : List StreamEventName
  statusValues : List String
deriving DecidableEq, Repr

/-- EventBridge pattern matching for the filters used here: the record
matches when its event name is one of the listed names and the new image
has a string `status` attribute whose value is one of the listed values. -/
def matchesFilter (p : FilterPattern) (ev : ChangeEvent) : Bool :=
  p.eventNames.contains ev.eventName &&
    (match Image.lookupS ev.newImage "status" with
     | some s => p.statusValues.contains s
     | none => false)

/-- The message a pipe target delivers to SQS: the FIFO parameters set by
`PipeTargetSqsQueueParametersProperty` and the body built from the
`input_template` (each output field resolved from the new image; a field
may be absent from the image). -/
structure QueueMessage where
  dedupId : Option String
  groupId : String
  body : List (String × Option AttrValue)
deriving DecidableEq, Repr

/-- Configuration of an EventBridge pipe from a DynamoDB stream to an SQS
queue, as declared by `CfnPipe` in `eventbridge/create_pipes.py`. -/
structure PipeCfg where
  pipeName : String
  startingPosition : String
  batchSize : Nat
  /-- `dead_letter_config` type field (the source passes only a type). -/
  deadLetterType : Option String
  /-- No dead-letter target ARN is given anywhere in the source. -/
  deadLetterTargetArn : Option String
  /-- `maximum_retry_attempts` is not set by the source; the stream-source
  default is unbounded retry until the record expires. -/
  maximumRetryAttempts : Option Int
  filter : FilterPattern
  /-- New-image attribute used for `message_deduplication_id`
  (the source path is `$.dynamodb.NewImage.<field>.S`). -/
  dedupIdField : String
  groupId : String
  /-- `input_template` fields: output name paired with the new-image
  attribute it is resolved from. -/
  templateFields : List (String × String)
deriving DecidableEq, Repr

/-- `create_document_watch_pipe`: DocumentWatch stream to the S3 upload
queue, filter `eventName in [INSERT, MODIFY]` and `NewImage.status.S = NEW`,
dedup id from `NewImage.imageId.S`, group id `imaging-metadata`. -/
def documentWatchPipe : PipeCfg :=
  { pipeName := "document-watch-to-s3-upload-pipe"
    startingPosition := "LATEST"
    batchSize := 1
    deadLetterType := some "SQS"
    deadLetterTargetArn := none
    maximumRetryAttempts := none
    filter := { eventNames := [StreamEventName.INSERT, StreamEventName.MODIFY]
                statusValues := ["NEW"] }
    dedupIdField := "imageId"
    groupId := "imaging-metadata"
    templateFields :=
      [("imageId", "imageId"), ("patientId", "patientId"),
       ("clinicId", "clinicId"), ("imageType", "imageType"),
       ("s3Key", "s3Key"), ("timestamp", "timestamp")] }

/-- `create_ddx_results_pipe`: DdxAssistResults stream to the composition
queue, filter `eventName in [INSERT, MODIFY]` and
`NewImage.status.S = ANALYZED`, dedup id from `NewImage.imageId.S`,
group id `analysis-results`. -/
def ddxResultsPipe : PipeCfg :=
  { pipeName := "DdxAssistResults-CompositionQueue-Pipe"
    startingPosition := "LATEST"
    batchSize := 1
    deadLetterType := some "SQS"
    deadLetterTargetArn := none
    maximumRetryAttempts := none
    filter := { eventNames := [StreamEventName.INSERT, StreamEventName.MODIFY]
                statusValues := ["ANALYZED"] }
    dedupIdField := "imageId"
    groupId := "analysis-results"
    templateFields :=
      [("imageId", "imageId"), ("patientId", "patientId"),
       ("clinicId", "clinicId"), ("findings", "findings"),
       ("confidence", "confidence"), ("timestamp", "timestamp")] }

/-- Build the queue message the pipe target produces for a matching
record: dedup id resolved from the configured new-image attribute, group
id from the configuration, body from the input template. -/
def mkMessage (cfg : PipeCfg) (ev : ChangeEvent) : QueueMessage :=
  { dedupId := Image.lookupS ev.newImage cfg.dedupIdField
    groupId := cfg.groupId
    body := cfg.templateFields.map
      (fun f => (f.1, List.lookup f.2 ev.newImage)) }

/-- Pipe processing of one stream record: a matching record is forwarded
as exactly one queue message (the source sets `batch_size = 1`); a
non-matching record is dropped with no output. -/
def routeEvent (cfg : PipeCfg) (ev : ChangeEvent) : List QueueMessage :=
  if matchesFilter cfg.filter ev then [mkMessage cfg ev] else []

/-- What becomes of a source batch whose delivery keeps failing after the
stream source gives up on it. -/
inductive BatchFate
  | deadLettered (arn : String)
  | discarded
deriving DecidableEq, Repr

/-- Stream-source failure handling: an exhausted batch is routed to the
dead-letter target only when a target ARN is configured; with no ARN the
records are dropped once the source gives up on them. -/
def fateAfterFailures (cfg : PipeCfg) : BatchFate :=
  match cfg.deadLetterTargetArn with
  | some a => BatchFate.deadLettered a
  | none => BatchFate.discarded

/-- DynamoDB billing mode. `aws_dynamodb.Table` defaults to
`PROVISIONED` when `billing_mode` is not passed. -/
inductive BillingMode
  | provisioned
  | payPerRequest
deriving DecidableEq, Repr

/-- Configuration of a DynamoDB table as declared in
`dynamodb/create_tables.py`. `timeToLiveAttribute` is `none` unless
`time_to_live_attribute` is passed (no table in the source passes it). -/
structure TableCfg where
  tableName : String
  partitionKey : String
  sortKey : Option String
  billingMode : BillingMode
  timeToLiveAttribute : Option String
  streamEnabled : Bool
deriving DecidableEq, Repr

/-- `create_encounter_watch_table`: keys `(encounterId, patientId)`,
stream `NEW_AND_OLD_IMAGES`, `billing_mode = PAY_PER_REQUEST`. -/
def encounterWatchTable : TableCfg :=
  { tableName := "EncounterWatch"
    partitionKey := "encounterId"
    sortKey := some "patientId"
    billingMode := BillingMode.payPerRequest
    timeToLiveAttribute := none
    streamEnabled := true }

/-- `create_document_watch_table`: keys `(fileId, firmId)`, stream
`NEW_AND_OLD_IMAGES`; `billing_mode` is not passed, so the CDK default
`PROVISIONED` applies. -/
def documentWatchTable : TableCfg :=
  { tableName := "DocumentWatch"
    partitionKey := "fileId"
    sortKey := some "firmId"
    billingMode := BillingMode.provisioned
    timeToLiveAttribute := none
    streamEnabled := true }

/-- `create_ddx_results_table`: keys `(fileId, firmId)`, stream
`NEW_AND_OLD_IMAGES`; `billing_mode` is not passed, so the CDK default
`PROVISIONED` applies. -/
def ddxResultsTable : TableCfg :=
  { tableName := "DdxAssistResults"
    partitionKey := "fileId"
    sortKey := some "firmId"
    billingMode := BillingMode.provisioned
    timeToLiveAttribute := none
    streamEnabled := true }

/-- `create_practitioner_whitelist_table`: key `id`,
`billing_mode = PAY_PER_REQUEST`, no stream. -/
def practitionerWhitelistTable : TableCfg :=
  { tableName := "PractitionerWhitelist"
    partitionKey := "id"
    sortKey := none
    billingMode := BillingMode.payPerRequest
    timeToLiveAttribute := none
    streamEnabled := false }

/-- DynamoDB TTL background reclamation as the platform performs it: a
record is eligible for deletion only when the table has a TTL attribute
configured and the record's value for that attribute is a number earlier
than the current time. -/
def reclaims (t : TableCfg) (rec : Image) (now : Int) : Bool :=
  match t.timeToLiveAttribute with
  | some a =>
      (match Image.lookupN rec a with
       | some e => decide (e < now)
       | none => false)
  | none => false

/-- Modelled from the spec: the Encounter-Poller Lambda body is not in the
repository (only its asset reference and docstring are); per the spec it
inserts a WatchRecord with status `NEW` and TTL = now + 24h. The TTL
attribute name is not fixed by the repository; `ttl` is used here. -/
def pollerInsertRecord (now : Int) (encounterId patientId : String) : Image :=
  [("encounterId", AttrValue.S encounterId),
   ("patientId", AttrValue.S patientId),
   ("status", AttrValue.S "NEW"),
   ("ttl", AttrValue.N (now + 24 * 3600))]

/-- Configuration of an SQS queue as declared in `sqs/create_sqs.py`.
None of the queues is FIFO (no `fifo` flag, and no queue name carries the
`.fifo` marker), so `fifo` is `false` throughout; visibility timeout
defaults to 30 seconds and retention to 4 days where the source does not
set them. -/
structure QueueCfg where
  queueName : String
  fifo : Bool
  visibilityTimeoutSeconds : Nat
  retentionPeriodDays : Nat
  /-- `max_receive_count` of the attached `DeadLetterQueue`, when one is
  attached. -/
  maxReceiveCount : Option Nat
  /-- Name of the paired dead-letter queue, when one is attached. -/
  dlqName : Option String
deriving DecidableEq, Repr

/-- The dead-letter queue of `create_composition_queue`:
name `ddx-assist-composition-dlq`, retention 14 days. -/
def compositionDlq : QueueCfg :=
  { queueName := "ddx-assist-composition-dlq"
    fifo := false
    visibilityTimeoutSeconds := 30
    retentionPeriodDays := 14
    maxReceiveCount := none
    dlqName := none }

/-- The main queue of `create_composition_queue`:
name `ddx-assist-composition-queue`, visibility timeout 300 seconds,
dead-letter queue `compositionDlq` after `max_receive_count = 3`. -/
def compositionQueue : QueueCfg :=
  { queueName := "ddx-assist-composition-queue"
    fifo := false
    visibilityTimeoutSeconds := 300
    retentionPeriodDays := 4
    maxReceiveCount := some 3
    dlqName := some "ddx-assist-composition-dlq" }

/-- The dead-letter queue of `create_s3_upload_queue`:
name `mod-med-s3-upload-dlq`, retention 14 days. -/
def s3UploadDlq : QueueCfg :=
  { queueName := "mod-med-s3-upload-dlq"
    fifo := false
    visibilityTimeoutSeconds := 30
    retentionPeriodDays := 14
    maxReceiveCount := none
    dlqName := none }

/-- The main queue of `create_s3_upload_queue`:
name `mod-med-s3-upload-queue`, visibility timeout 180 seconds,
dead-letter queue `s3UploadDlq` after `max_receive_count = 3`. -/
def s3UploadQueue : QueueCfg :=
  { queueName := "mod-med-s3-upload-queue"
    fifo := false
    visibilityTimeoutSeconds := 180
    retentionPeriodDays := 4
    maxReceiveCount := some 3
    dlqName := some "mod-med-s3-upload-dlq" }

/-- Where a tracked message currently is: still in the main queue or
moved to the paired dead-letter queue. -/
inductive MsgLocation
  | main
  | dlq
deriving DecidableEq, Repr

/-- The redrive-relevant state of one message: its location and how many
times it has been received without being acknowledged. -/
structure MsgState where
  loc : MsgLocation
  receiveCount : Nat
deriving DecidableEq, Repr

/-- One unacknowledged delivery attempt under the redrive policy: while
the receive count is below `maxR` the message is delivered again (count
incremented); once `maxR` unacknowledged receives have happened, the next
attempt moves the message to the dead-letter queue instead. A message
already in the dead-letter queue stays there. -/
def attemptStep (maxR : Nat) (s : MsgState) : MsgState :=
  match s.loc with
  | MsgLocation.main =>
      if s.receiveCount < maxR then
        { loc := MsgLocation.main, receiveCount := s.receiveCount + 1 }
      else
        { loc := MsgLocation.dlq, receiveCount := s.receiveCount }
  | MsgLocation.dlq => s

/-- State of a fresh message after `n` unacknowledged delivery attempts
against a redrive policy with maximum receive count `maxR`. -/
def deliverN (maxR : Nat) : Nat → MsgState
  | 0 => { loc := MsgLocation.main, receiveCount := 0 }
  | n + 1 => attemptStep maxR (deliverN maxR n)

/-- The fixed SQS FIFO deduplication interval, in seconds. -/
def dedupWindowSeconds : Nat := 300

/-- Whether SQS suppresses an enqueue at time `now` given the time of the
previous enqueue carrying the same deduplication id: suppression happens
only on a FIFO queue, and only within the deduplication window of the
previous enqueue. A standard queue performs no deduplication. -/
def suppressed (q : QueueCfg) (prev : Option Nat) (now : Nat) : Bool :=
  q.fifo &&
    (match prev with
     | some t => decide (now - t < dedupWindowSeconds)
     | none => false)

/-- Enqueue a message with deduplication id `k` at time `now` onto the
queue content `st` (most recent first, each entry an id with its enqueue
time): the message is added unless deduplication suppresses it. -/
def enqueue (q : QueueCfg) (st : List (String × Nat)) (k : String)
    (now : Nat) : List (String × Nat) :=
  if suppressed q (List.lookup k st) now then st else (k, now) :: st

/-- Retry policy of a Step Functions task, as `sfn.RetryProps`:
`max_attempts` bounds the number of retries after the first execution,
`interval` is the first wait, `backoff_rate` the multiplier, and `errors`
the error names the retrier applies to. -/
structure RetryProps where
  maxAttempts : Nat
  intervalSeconds : Nat
  backoffRate : Nat
  errors : List String
deriving DecidableEq, Repr

/-- The `standard_retry` policy of `create_state_machine.py`:
`max_attempts = 3`, `interval = 2` seconds, `backoff_rate = 2`, applied
to `Lambda.ServiceException` and `Lambda.ResourceNotFoundException`. -/
def standard_retry : RetryProps :=
  { maxAttempts := 3
    intervalSeconds := 2
    backoffRate := 2
    errors := ["Lambda.ServiceException", "Lambda.ResourceNotFoundException"] }

/-- Wait before the retry that follows attempt `i` (0-based): the first
retry waits `interval`, and each further retry multiplies the wait by
`backoff_rate`. -/
def retryDelay (r : RetryProps) (i : Nat) : Nat :=
  r.intervalSeconds * r.backoffRate ^ i

/-- Execute a retried task against an attempt oracle `att` (`att i` is
the outcome of the i-th execution: `none` for success, `some e` for an
error named `e`). `fuel` is the number of retries still allowed. The
result is the final outcome (`none` = success, `some e` = the error that
escapes to the catcher) paired with the list of backoff waits actually
taken. A retry is taken only while retries remain and the error name is
in the retrier's list. -/
def runWithRetry (r : RetryProps) (att : Nat → Option String) :
    Nat → Nat → Option String × List Nat
  | i, 0 =>
      (att i, [])
  | i, fuel + 1 =>
      match att i with
      | none => (none, [])
      | some e =>
          if r.errors.contains e then
            ((runWithRetry r att (i + 1) fuel).1,
              retryDelay r i :: (runWithRetry r att (i + 1) fuel).2)
          else (some e, [])

/-- Run a task from its first attempt with its full retry budget. -/
def runTask (r : RetryProps) (att : Nat → Option String) :
    Option String × List Nat :=
  runWithRetry r att 0 r.maxAttempts

/-- The states of the imaging workflow as chained in
`create_state_machine.py`. -/
inductive WfState
  | extractMetadata
  | processImage
  | analyzeImage
  | handleErrorState
deriving DecidableEq, Repr

/-- A JSON value of the state machine's working data (only the shapes
used by this workflow: strings, numbers, and objects). -/
inductive JVal
  | str (s : String)
  | num (n : Int)
  | obj (fields : List (String × JVal))

/-- The state machine's working data: a JSON object, as an association
list of top-level fields. -/
abbrev JObj := List (String × JVal)

/-- Set a top-level field of the working data, replacing any previous
value for the same name. -/
def setField (d : JObj) (k : String) (v : JVal) : JObj :=
  (k, v) :: d.filter (fun kv => kv.1 != k)

/-- Resolve a single-segment reference path such as `$.error` against the
working data: drop the leading two characters and look the field up;
`none` when the field does not exist (in Step Functions, a `Parameters`
path that resolves to nothing raises a `States.Runtime` error). -/
def resolvePath (d : JObj) (p : String) : Option JVal :=
  List.lookup (p.drop 2) d

/-- One entry of a `Pass` state's `parameters`: a literal value or a
reference path (a key ending in `.$` in the source). -/
inductive ParamSpec
  | lit (v : String)
  | path (p : String)

/-- The `parameters` of the `HandleError` state: `error.$ = $.error`,
`cause.$ = $.cause`, and the literal `status = ERROR`. -/
def handle_error_params : List (String × ParamSpec) :=
  [("error", ParamSpec.path "$.error"),
   ("cause", ParamSpec.path "$.cause"),
   ("status", ParamSpec.lit "ERROR")]

/-- Resolve a parameter block against the working data; the whole block
fails (yields `none`) as soon as one reference path resolves to
nothing. -/
def applyParams (ps : List (String × ParamSpec)) (d : JObj) : Option JObj :=
  match ps with
  | [] => some []
  | (k, ParamSpec.lit v) :: rest =>
      match applyParams rest d with
      | some r => some ((k, JVal.str v) :: r)
      | none => none
  | (k, ParamSpec.path p) :: rest =>
      match applyParams rest d with
      | some r =>
          (match resolvePath d p with
           | some v => some ((k, v) :: r)
           | none => none)
      | none => none

/-- The input a catcher with `result_path = $.error` hands to its
handler: the state input with the error object
(fields `Error` and `Cause`) placed at the top-level field `error`. -/
def catchInput (input : JObj) (e c : String) : JObj :=
  setField input "error"
    (JVal.obj [("Error", JVal.str e), ("Cause", JVal.str c)])

/-- Outcome of running a terminal state on some working data. -/
inductive RunOutcome
  | succeeded (out : JObj)
  | failedRuntime

/-- Execute the `HandleError` `Pass` state on its input: resolve its
`parameters` and write the result at `result_path = $.errorInfo`; if a
parameter path is missing the state raises `States.Runtime` and, nothing
catching it, the execution fails with no `errorInfo` written. -/
def runHandleError (input : JObj) : RunOutcome :=
  match applyParams handle_error_params input with
  | some r => RunOutcome.succeeded (setField input "errorInfo" (JVal.obj r))
  | none => RunOutcome.failedRuntime

/-- A `LambdaInvoke` task of the workflow: its retriers, its catcher
(handler state, `result_path`, and caught error names — `add_catch`
defaults to `States.ALL`), and its successor in the chain. -/
structure TaskCfg where
  taskName : String
  retriers : List RetryProps
  catchHandler : WfState
  catchResultPath : String
  catchErrors : List String
  next : Option WfState
deriving DecidableEq, Repr

/-- The `ExtractMetadata` task: retried by `standard_retry`, catching to
`HandleError` at `$.error`, then `ProcessImage`. -/
def extract_metadata_task : TaskCfg :=
  { taskName := "ExtractMetadata"
    retriers := [standard_retry]
    catchHandler := WfState.handleErrorState
    catchResultPath := "$.error"
    catchErrors := ["States.ALL"]
    next := some WfState.processImage }

/-- The `ProcessImage` task: retried by `standard_retry`, catching to
`HandleError` at `$.error`, then `AnalyzeImage`. -/
def process_image_task : TaskCfg :=
  { taskName := "ProcessImage"
    retriers := [standard_retry]
    catchHandler := WfState.handleErrorState
    catchResultPath := "$.error"
    catchErrors := ["States.ALL"]
    next := some WfState.analyzeImage }

/-- The `AnalyzeImage` task: retried by `standard_retry`, catching to
`HandleError` at `$.error`; terminal on success. -/
def analyze_image_task : TaskCfg :=
  { taskName := "AnalyzeImage"
    retriers := [standard_retry]
    catchHandler := WfState.handleErrorState
    catchResultPath := "$.error"
    catchErrors := ["States.ALL"]
    next := none }

/-- The task chain of `workflow_definition` in source order. -/
def workflow_definition : List TaskCfg :=
  [extract_metadata_task, process_image_task, analyze_image_task]

/-- The `HandleError` `Pass` state has no retriers of its own and no
successor. -/
structure PassCfg where
  passName : String
  parameters : List (String × ParamSpec)
  resultPath : String
  retriers : List RetryProps
  next : Option WfState

/-- The `HandleError` state of `create_state_machine.py`. -/
def handle_error : PassCfg :=
  { passName := "HandleError"
    parameters := handle_error_params
    resultPath := "$.errorInfo"
    retriers := []
    next := none }

/-- An S3 key filter of a notification configuration. The source passes
`prefix = "uploads/"` and `suffix = ".jpg"`; the fields are named for the
string test they induce on the object key. -/
structure NotificationKeyFilter where
  keyStartsWith : String
  keyEndsWith : String
deriving DecidableEq, Repr

/-- S3 event categories relevant here. -/
inductive S3EventType
  | objectCreated
  | objectRemoved
deriving DecidableEq, Repr

/-- An S3 event source attached to a Lambda function, as configured by
`assign_s3_event_source` in `lambdas/define_io.py`. -/
structure S3EventSourceCfg where
  events : List S3EventType
  filters : List NotificationKeyFilter
deriving DecidableEq, Repr

/-- The event source `assign_s3_event_source` attaches to the
`GetDdxAssistInference` function: `OBJECT_CREATED` events filtered to
keys with the `uploads/` key start and the `.jpg` key end. -/
def inferenceEventSource : S3EventSourceCfg :=
  { events := [S3EventType.objectCreated]
    filters := [{ keyStartsWith := "uploads/", keyEndsWith := ".jpg" }] }

/-- Whether string `p` is a literal character-wise start of string `k`. -/
def strStarts (k p : String) : Bool :=
  List.isPrefixOf p.toList k.toList

/-- Whether string `s` is a literal character-wise end of string `k`. -/
def strEnds (k s : String) : Bool :=
  List.isSuffixOf s.toList k.toList

/-- Whether an S3 event of type `t` for object key `key` triggers the
function behind the event source: the event type must be configured and
some key filter must accept the key (literal leading and trailing match,
as S3 key filters are). -/
def triggersFn (cfg : S3EventSourceCfg) (t : S3EventType) (key : String) : Bool :=
  cfg.events.contains t &&
    cfg.filters.any
      (fun f => strStarts key f.keyStartsWith && strEnds key f.keyEndsWith)

/-- A concrete DocumentWatch change record used below: new `NEW`-status
image whose table key attribute `fileId` and whose `imageId` carry
different values. -/
def evDocNew : ChangeEvent :=
  { eventName := StreamEventName.INSERT
    newImage :=
      [("fileId", AttrValue.S "file-1"), ("firmId", AttrValue.S "firm-1"),
       ("imageId", AttrValue.S "img-1"), ("patientId", AttrValue.S "p-1"),
       ("clinicId", AttrValue.S "c-1"), ("imageType", AttrValue.S "xray"),
       ("s3Key", AttrValue.S "uploads/img-1.jpg"),
       ("timestamp", AttrValue.N 5), ("status", AttrValue.S "NEW")]
    oldImage := [] }

/-- A concrete deletion record on the same item. -/
def evDocRemove : ChangeEvent :=
  { eventName := StreamEventName.REMOVE
    newImage := []
    oldImage := evDocNew.newImage }

/-- A concrete DdxAssistResults change record with `ANALYZED` status. -/
def evDdxAnalyzed : ChangeEvent :=
  { eventName := StreamEventName.MODIFY
    newImage :=
      [("fileId", AttrValue.S "file-1"), ("firmId", AttrValue.S "firm-1"),
       ("imageId", AttrValue.S "img-1"), ("patientId", AttrValue.S "p-1"),
       ("clinicId", AttrValue.S "c-1"), ("findings", AttrValue.S "none"),
       ("confidence", AttrValue.N 95), ("timestamp", AttrValue.N 9),
       ("status", AttrValue.S "ANALYZED")]
    oldImage := [] }

/-- A pipe forwards at least one message exactly when its filter matches
the record. -/
theorem routeEvent_ne_nil_iff (cfg : PipeCfg) (ev : ChangeEvent) :
    routeEvent cfg ev ≠ [] ↔ matchesFilter cfg.filter ev = true := by
  unfold routeEvent
  by_cases h : matchesFilter cfg.filter ev = true <;> simp [h]

/-- Characterisation of the two-name, one-status filters used by both
pipes. -/
theorem matchesFilter_pair_iff (a b : StreamEventName) (v : String)
    (ev : ChangeEvent) :
    matchesFilter { eventNames := [a, b], statusValues := [v] } ev = true ↔
      ((ev.eventName = a ∨ ev.eventName = b) ∧
        Image.lookupS ev.newImage "status" = some v) := by
  unfold matchesFilter
  cases hs : Image.lookupS ev.newImage "status" with
  | none => simp
  | some s =>
      simp only [Bool.and_eq_true, List.elem_iff, List.mem_cons,
        List.mem_singleton, List.not_mem_nil, or_false, Option.some_inj]

/-- C1: each Change Feed Router pipe forwards a queue message exactly when
the event type is INSERT or MODIFY and the new image's `status` string
attribute equals `NEW` (DocumentWatch pipe) respectively `ANALYZED`
(DdxAssistResults pipe); a REMOVE record is never forwarded by either
pipe. -/
theorem c1_router_forwards_iff_filter (ev : ChangeEvent) :
    ((routeEvent documentWatchPipe ev ≠ []) ↔
      ((ev.eventName = StreamEventName.INSERT ∨
          ev.eventName = StreamEventName.MODIFY) ∧
        Image.lookupS ev.newImage "status" = some "NEW")) ∧
    ((routeEvent ddxResultsPipe ev ≠ []) ↔
      ((ev.eventName = StreamEventName.INSERT ∨
          ev.eventName = StreamEventName.MODIFY) ∧
        Image.lookupS ev.newImage "status" = some "ANALYZED")) ∧
    (ev.eventName = StreamEventName.REMOVE →
      routeEvent documentWatchPipe ev = [] ∧ routeEvent ddxResultsPipe ev = []) := by
  have hdoc := (routeEvent_ne_nil_iff documentWatchPipe ev).trans
    (matchesFilter_pair_iff StreamEventName.INSERT StreamEventName.MODIFY "NEW" ev)
  have hddx := (routeEvent_ne_nil_iff ddxResultsPipe ev).trans
    (matchesFilter_pair_iff StreamEventName.INSERT StreamEventName.MODIFY "ANALYZED" ev)
  refine ⟨hdoc, hddx, fun hrm => ⟨?_, ?_⟩⟩
  · by_contra hne
    rcases hdoc.mp hne with ⟨h1 | h1, _⟩ <;> rw [hrm] at h1 <;> cases h1
  · by_contra hne
    rcases hddx.mp hne with ⟨h1 | h1, _⟩ <;> rw [hrm] at h1 <;> cases h1

/-- C1 witness: the concrete records above exercise both directions. -/
theorem c1_witness :
    routeEvent documentWatchPipe evDocRemove = [] ∧
    routeEvent ddxResultsPipe evDocRemove = [] :=
  (c1_router_forwards_iff_filter evDocRemove).2.2 rfl

/-- C2 counterexample: on a matching DocumentWatch record the forwarded
message's deduplication id is the new image's `imageId` value, which
differs from the value of the table's primary key attribute `fileId`. -/
theorem c2_dedup_key_not_primary_key :
    documentWatchTable.partitionKey = "fileId" ∧
    Image.lookupS evDocNew.newImage "fileId" = some "file-1" ∧
    (routeEvent documentWatchPipe evDocNew).map QueueMessage.dedupId =
      [some "img-1"] ∧
    (routeEvent documentWatchPipe evDocNew).map QueueMessage.dedupId ≠
      [Image.lookupS evDocNew.newImage "fileId"] := by
  decide

/-- C2 (amended): every matching change event yields exactly one message,
whose deduplication id is resolved deterministically from the new image's
`imageId` attribute (not from the table's primary key attribute). -/
theorem c2_amended_dedup_from_image_id (ev : ChangeEvent) :
    (matchesFilter documentWatchPipe.filter ev = true →
      routeEvent documentWatchPipe ev = [mkMessage documentWatchPipe ev] ∧
      (routeEvent documentWatchPipe ev).map QueueMessage.dedupId =
        [Image.lookupS ev.newImage "imageId"]) ∧
    (matchesFilter ddxResultsPipe.filter ev = true →
      routeEvent ddxResultsPipe ev = [mkMessage ddxResultsPipe ev] ∧
      (routeEvent ddxResultsPipe ev).map QueueMessage.dedupId =
        [Image.lookupS ev.newImage "imageId"]) := by
  have hd : documentWatchPipe.dedupIdField = "imageId" := rfl
  have hx : ddxResultsPipe.dedupIdField = "imageId" := rfl
  constructor <;> intro h <;>
    simp [routeEvent, h, mkMessage, hd, hx]

/-- C2 witness: the amended statement at the concrete matching record. -/
theorem c2_witness :
    matchesFilter documentWatchPipe.filter evDocNew = true ∧
    (routeEvent documentWatchPipe evDocNew = [mkMessage documentWatchPipe evDocNew] ∧
      (routeEvent documentWatchPipe evDocNew).map QueueMessage.dedupId =
        [Image.lookupS evDocNew.newImage "imageId"]) :=
  ⟨by decide, (c2_amended_dedup_from_image_id evDocNew).1 (by decide)⟩

/-- The wait list of a retried execution never exceeds the remaining
retry budget. -/
theorem runWithRetry_waits_le (r : RetryProps) (att : Nat → Option String) :
    ∀ fuel i, (runWithRetry r att i fuel).2.length ≤ fuel := by
  intro fuel
  induction fuel with
  | zero => intro i; simp [runWithRetry]
  | succ fuel ih =>
      intro i
      unfold runWithRetry
      cases att i with
      | none => simp
      | some e =>
          show (if r.errors.contains e = true then
              ((runWithRetry r att (i + 1) fuel).1,
                retryDelay r i :: (runWithRetry r att (i + 1) fuel).2)
            else (some e, [])).2.length ≤ fuel + 1
          by_cases h : r.errors.contains e = true
          · rw [if_pos h]
            rw [List.length_cons]
            exact Nat.succ_le_succ (ih (i + 1))
          · rw [if_neg h]
            simp

/-- An error outside the retrier's list ends the execution at once, with
no backoff wait taken, whatever retry budget remains. -/
theorem runWithRetry_nonretryable (r : RetryProps) (att : Nat → Option String)
    (i fuel : Nat) (e : String) (h0 : att i = some e)
    (hne : r.errors.contains e = false) :
    runWithRetry r att i (fuel + 1) = (some e, []) := by
  have hne' : ¬ r.errors.contains e = true := by
    rw [hne]; exact Bool.false_ne_true
  unfold runWithRetry
  rw [h0]
  show (if r.errors.contains e = true then
      ((runWithRetry r att (i + 1) fuel).1,
        retryDelay r i :: (runWithRetry r att (i + 1) fuel).2)
    else (some e, [])) = (some e, [])
  rw [if_neg hne']

/-- C3: every workflow task is retried by `standard_retry` and caught to
the error state; the policy allows at most 3 retries, with waits 2, 4, 8
(doubling from 2); a persistent designated transient error exhausts
exactly those retries, while an error outside the designated set is not
retried at all and escapes directly to the catcher. -/
theorem c3_step_retry_policy :
    workflow_definition.map TaskCfg.retriers =
      [[standard_retry], [standard_retry], [standard_retry]] ∧
    workflow_definition.map TaskCfg.catchHandler =
      [WfState.handleErrorState, WfState.handleErrorState,
        WfState.handleErrorState] ∧
    standard_retry.maxAttempts = 3 ∧
    standard_retry.errors =
      ["Lambda.ServiceException", "Lambda.ResourceNotFoundException"] ∧
    (∀ i, retryDelay standard_retry i = 2 * 2 ^ i) ∧
    (∀ att : Nat → Option String, (runTask standard_retry att).2.length ≤ 3) ∧
    (∀ att : Nat → Option String,
      (∀ i, att i = some "Lambda.ServiceException") →
      runTask standard_retry att = (some "Lambda.ServiceException", [2, 4, 8])) ∧
    (∀ (att : Nat → Option String) (e : String),
      att 0 = some e → standard_retry.errors.contains e = false →
      runTask standard_retry att = (some e, [])) := by
  refine ⟨rfl, rfl, rfl, rfl, fun i => rfl, ?_, ?_, ?_⟩
  · intro att
    exact runWithRetry_waits_le standard_retry att 3 0
  · intro att h
    have ha : att = fun _ => some "Lambda.ServiceException" := funext h
    rw [ha]; decide
  · intro att e h0 hne
    show runWithRetry standard_retry att 0 (2 + 1) = (some e, [])
    exact runWithRetry_nonretryable standard_retry att 0 2 e h0 hne

/-- C3 witness: the semantic parts of the policy at concrete oracles. -/
theorem c3_witness :
    runTask standard_retry (fun _ => some "Lambda.ServiceException") =
      (some "Lambda.ServiceException", [2, 4, 8]) ∧
    runTask standard_retry (fun _ => some "States.Timeout") =
      (some "States.Timeout", []) :=
  ⟨c3_step_retry_policy.2.2.2.2.2.2.1 _ (fun _ => rfl),
   c3_step_retry_policy.2.2.2.2.2.2.2 _ "States.Timeout" rfl (by decide)⟩

/-- C4: the error state is wired as the catcher of all three tasks with
`result_path = $.error` and carries no retrier — but its parameters read
`$.cause`, a field no catcher populates, so on a caught failure the
parameter block fails to resolve and the run aborts with a runtime error
instead of recording the error information. -/
theorem c4_error_capture_runtime_failure :
    workflow_definition.map TaskCfg.catchHandler =
      [WfState.handleErrorState, WfState.handleErrorState,
        WfState.handleErrorState] ∧
    workflow_definition.map TaskCfg.catchResultPath =
      ["$.error", "$.error", "$.error"] ∧
    handle_error.retriers = [] ∧
    (resolvePath (catchInput [] "States.TaskFailed" "boom") "$.error").isSome = true ∧
    resolvePath (catchInput [] "States.TaskFailed" "boom") "$.cause" = none ∧
    runHandleError (catchInput [] "States.TaskFailed" "boom") =
      RunOutcome.failedRuntime :=
  ⟨rfl, rfl, rfl, rfl, rfl, rfl⟩

/-- A fresh message delivered at most `maxR` times is still in the main
queue, with its receive count tracking the attempts. -/
theorem deliverN_le (maxR : Nat) :
    ∀ n, n ≤ maxR →
      deliverN maxR n = { loc := MsgLocation.main, receiveCount := n } := by
  intro n
  induction n with
  | zero => intro _; rfl
  | succ n ih =>
      intro h
      have hn : n ≤ maxR := Nat.le_of_succ_le h
      have hlt : n < maxR := Nat.lt_of_succ_le h
      show attemptStep maxR (deliverN maxR n) = _
      rw [ih hn]
      simp [attemptStep, hlt]

/-- Once more than `maxR` unacknowledged deliveries have been attempted,
the message sits in the dead-letter queue. -/
theorem deliverN_gt (maxR : Nat) :
    ∀ n, maxR < n → (deliverN maxR n).loc = MsgLocation.dlq := by
  intro n
  induction n with
  | zero => intro h; cases h
  | succ n ih =>
      intro h
      show (attemptStep maxR (deliverN maxR n)).loc = MsgLocation.dlq
      rcases Nat.lt_or_ge maxR n with hlt | hge
      · have := ih hlt
        cases hd : deliverN maxR n with
        | mk loc cnt =>
            rw [hd] at this
            simp at this
            rw [this]
            rfl
      · have hn : n = maxR := Nat.le_antisymm hge (Nat.le_of_lt_succ h)
        rw [deliverN_le maxR n (le_of_eq hn), hn]
        simp [attemptStep]

/-- C5: the upload queue has a 180-second and the composition queue a
300-second visibility timeout; both redrive to their paired dead-letter
queue after `max_receive_count = 3`, the dead-letter queues retain for 14
days, and any message delivered more than 3 times without acknowledgement
is in the paired dead-letter queue and no longer in the main queue. -/
theorem c5_queue_dlq_policy :
    s3UploadQueue.visibilityTimeoutSeconds = 180 ∧
    compositionQueue.visibilityTimeoutSeconds = 300 ∧
    s3UploadQueue.maxReceiveCount = some 3 ∧
    compositionQueue.maxReceiveCount = some 3 ∧
    s3UploadQueue.dlqName = some s3UploadDlq.queueName ∧
    compositionQueue.dlqName = some compositionDlq.queueName ∧
    s3UploadDlq.retentionPeriodDays = 14 ∧
    compositionDlq.retentionPeriodDays = 14 ∧
    (∀ n, 3 < n →
      (deliverN (s3UploadQueue.maxReceiveCount.getD 0) n).loc = MsgLocation.dlq ∧
      (deliverN (compositionQueue.maxReceiveCount.getD 0) n).loc = MsgLocation.dlq ∧
      (deliverN 3 n).loc ≠ MsgLocation.main) := by
  refine ⟨rfl, rfl, rfl, rfl, rfl, rfl, rfl, rfl, fun n h => ⟨?_, ?_, ?_⟩⟩
  · exact deliverN_gt 3 n h
  · exact deliverN_gt 3 n h
  · rw [deliverN_gt 3 n h]
    intro hc
    cases hc

/-- C5 witness: the redrive property at the fourth delivery attempt. -/
theorem c5_witness :
    (3 : Nat) < 4 ∧
    ((deliverN (s3UploadQueue.maxReceiveCount.getD 0) 4).loc = MsgLocation.dlq ∧
      (deliverN (compositionQueue.maxReceiveCount.getD 0) 4).loc = MsgLocation.dlq ∧
      (deliverN 3 4).loc ≠ MsgLocation.main) :=
  ⟨by decide, c5_queue_dlq_policy.2.2.2.2.2.2.2.2 4 (by decide)⟩

/-- C6: the poller's WatchRecord (modelled from the spec) does carry
status `NEW` and an expiry of now + 24h, but no table of the stack
configures a TTL attribute, so the store never reclaims a record — even
long after its expiry has passed. -/
theorem c6_ttl_reclamation_missing :
    Image.lookupS (pollerInsertRecord 1000 "enc-1" "pat-1") "status" =
      some "NEW" ∧
    Image.lookupN (pollerInsertRecord 1000 "enc-1" "pat-1") "ttl" =
      some (1000 + 24 * 3600) ∧
    encounterWatchTable.timeToLiveAttribute = none ∧
    documentWatchTable.timeToLiveAttribute = none ∧
    ddxResultsTable.timeToLiveAttribute = none ∧
    reclaims encounterWatchTable (pollerInsertRecord 1000 "enc-1" "pat-1")
      (1000 + 48 * 3600) = false := by
  decide

/-- C7: the pipes do set a deduplication id, but both target queues are
standard (non-FIFO) queues, so no enqueue is ever suppressed: two
enqueues of the same key one minute apart both land in the queue. -/
theorem c7_no_dedup_on_standard_queue :
    documentWatchPipe.dedupIdField = "imageId" ∧
    ddxResultsPipe.dedupIdField = "imageId" ∧
    compositionQueue.fifo = false ∧
    s3UploadQueue.fifo = false ∧
    suppressed compositionQueue (some 0) 60 = false ∧
    enqueue compositionQueue (enqueue compositionQueue [] "img-1" 0) "img-1" 60 =
      [("img-1", 60), ("img-1", 0)] := by
  decide

/-- C8 counterexample: the DocumentWatch and DdxAssistResults watch
tables are not on-demand — they take the CDK default fixed provisioned
capacity. -/
theorem c8_watch_tables_provisioned :
    documentWatchTable.billingMode = BillingMode.provisioned ∧
    documentWatchTable.billingMode ≠ BillingMode.payPerRequest ∧
    ddxResultsTable.billingMode ≠ BillingMode.payPerRequest := by
  decide

/-- C8 (amended): only the EncounterWatch and PractitionerWhitelist
tables are on-demand; DocumentWatch and DdxAssistResults use the default
provisioned capacity. -/
theorem c8_amended_billing_modes :
    encounterWatchTable.billingMode = BillingMode.payPerRequest ∧
    practitionerWhitelistTable.billingMode = BillingMode.payPerRequest ∧
    documentWatchTable.billingMode = BillingMode.provisioned ∧
    ddxResultsTable.billingMode = BillingMode.provisioned := by
  decide

/-- C9: both pipes declare a dead-letter type of SQS but name no target
ARN and bound no retry count, so a batch whose delivery keeps failing is
discarded rather than routed to a dead-letter target. -/
theorem c9_pipe_dlq_unconfigured :
    documentWatchPipe.deadLetterType = some "SQS" ∧
    ddxResultsPipe.deadLetterType = some "SQS" ∧
    documentWatchPipe.deadLetterTargetArn = none ∧
    ddxResultsPipe.deadLetterTargetArn = none ∧
    documentWatchPipe.maximumRetryAttempts = none ∧
    ddxResultsPipe.maximumRetryAttempts = none ∧
    fateAfterFailures documentWatchPipe = BatchFate.discarded ∧
    fateAfterFailures ddxResultsPipe = BatchFate.discarded := by
  decide

/-- C10: an S3 event triggers the inference function exactly when it is
an object-created event whose key starts with `uploads/` and ends with
`.jpg`. -/
theorem c10_inference_trigger_iff (t : S3EventType) (key : String) :
    triggersFn inferenceEventSource t key =
      (decide (t = S3EventType.objectCreated) &&
        strStarts key "uploads/" && strEnds key ".jpg") := by
  cases t <;> simp [triggersFn, inferenceEventSource]

end DdxAssist
